import Mathlib

/-!
Verification of the assignment-portal application (`app.py`).

The embedding models, faithfully to the source:
* the data model (`Student`, `Assignment`, `Submission`) with dates as
  integer day numbers and floating-point scores as rationals (every score
  the code produces — 5.0 and 95.0 — is exactly representable);
* `plagiarism_check` (app.py lines 216–221);
* the student dashboard's cohort filter and availability/urgency
  derivation (app.py lines 295–354);
* the `submit_assignment` route (lines 356–393) and the
  `delete_submission` route (lines 395–415) as state transitions on an
  explicit database value, with the external Cloudinary upload reduced to
  the URL it returns.

The SHA-256 digest computed by `calculate_hash` is an external `hashlib`
call; an uploaded file is modelled by the digest it hashes to.
-/

namespace AssignmentPortal

/-- `Student` model (app.py lines 44–53); `password` omitted as it never
feeds the logic under verification. -/
structure Student where
  id : Nat
  name : String
  roll_no : String
  branch : String
  year : String
  «section» : String
  phone : String
  email : String
  deriving DecidableEq

/-- `Assignment` model (app.py lines 55–62); `due_date` is a day number. -/
structure Assignment where
  id : Nat
  title : String
  year : String
  branch : String
  «section» : String
  due_date : Int
  file_url : String
  deriving DecidableEq

/-- `Submission` model (app.py lines 64–74). `plagiarism_score` is an
optional rational, mirroring the nullable Float column. -/
structure Submission where
  id : Nat
  student_id : Nat
  assignment_id : Nat
  file_url : String
  file_hash : String
  submitted_on : Int
  plagiarism_score : Option ℚ
  deriving DecidableEq

/-- An uploaded file, modelled by the SHA-256 hex digest of its bytes
(`hashlib.sha256` is an external library call). -/
structure FileUpload where
  sha256 : String
  deriving DecidableEq

/-- `calculate_hash` (app.py lines 210–214): the SHA-256 hex digest of the
file's content. -/
def calculate_hash (f : FileUpload) : String := f.sha256

/-- `plagiarism_check` (app.py lines 216–221): query the submissions table
for the first record with this `assignment_id` and `file_hash`; return
95.0 if one exists, else 5.0. -/
def plagiarism_check (submissions : List Submission)
    (assignment_id : Nat) (file_hash : String) : ℚ :=
  match submissions.find?
      (fun s => s.assignment_id == assignment_id && s.file_hash == file_hash) with
  | some _ => 95
  | none => 5

/-- A prior submission used in concrete scenarios: assignment 3, student 7,
content hash "h1". -/
def priorSub : Submission :=
  { id := 1, student_id := 7, assignment_id := 3, file_url := "u1",
    file_hash := "h1", submitted_on := 0, plagiarism_score := some 5 }

/-- C1 as stated is false: with a prior submission for assignment 3 whose
stored hash "h1" equals the new file's hash, `plagiarism_check` returns
95.0, not 100.0. -/
theorem C1_counterexample : plagiarism_check [priorSub] 3 "h1" ≠ 100 := by
  decide

/-- C1 (amended): whenever some prior submission for the same assignment
has the same stored hash, the score returned is 95.0 (and the scorer does
no text extraction: it reads only stored hashes). -/
theorem C1_hash_match_scores_95 (subs : List Submission) (aid : Nat) (h : String)
    (hmatch : ∃ s ∈ subs, s.assignment_id = aid ∧ s.file_hash = h) :
    plagiarism_check subs aid h = 95 := by
  unfold plagiarism_check
  obtain ⟨s, hs, h1, h2⟩ := hmatch
  cases hfind : subs.find? (fun s => s.assignment_id == aid && s.file_hash == h) with
  | some _ => rfl
  | none =>
    exact absurd (by simp [h1, h2]) (List.find?_eq_none.mp hfind s hs)

/-- Witness for C1: the amended theorem evaluated on the concrete prior. -/
theorem C1_witness : plagiarism_check [priorSub] 3 "h1" = 95 :=
  C1_hash_match_scores_95 [priorSub] 3 "h1" ⟨priorSub, by decide, by decide, by decide⟩

/-- C2 as stated is false: with no prior submissions at all the score is
5.0, not 0.0. -/
theorem C2_counterexample : plagiarism_check [] 3 "h1" ≠ 0 := by
  decide

/-- C2 (amended): when the assignment has no prior submissions, the score
returned is 5.0. -/
theorem C2_no_priors_scores_5 (subs : List Submission) (aid : Nat) (h : String)
    (hnone : ∀ s ∈ subs, s.assignment_id ≠ aid) :
    plagiarism_check subs aid h = 5 := by
  unfold plagiarism_check
  cases hfind : subs.find? (fun s => s.assignment_id == aid && s.file_hash == h) with
  | none => rfl
  | some s =>
    have hmem := List.mem_of_find?_eq_some hfind
    have hp := List.find?_some hfind
    simp only [Bool.and_eq_true, beq_iff_eq] at hp
    exact absurd hp.1 (hnone s hmem)

/-- Witness for C2: a table whose only submission belongs to another
assignment yields 5.0. -/
theorem C2_witness : plagiarism_check [priorSub] 4 "h1" = 5 :=
  C2_no_priors_scores_5 [priorSub] 4 "h1" (by decide)

/-- C7: every score `plagiarism_check` returns lies in [0, 100]. -/
theorem C7_score_in_range (subs : List Submission) (aid : Nat) (h : String) :
    0 ≤ plagiarism_check subs aid h ∧ plagiarism_check subs aid h ≤ 100 := by
  unfold plagiarism_check
  cases subs.find? (fun s => s.assignment_id == aid && s.file_hash == h) <;>
    exact ⟨by norm_num, by norm_num⟩

/-- C10: the scorer is a two-valued function — 95.0 exactly when some
stored submission of the assignment has an equal hash, 5.0 otherwise. -/
theorem C10_score_dichotomy (subs : List Submission) (aid : Nat) (h : String) :
    (plagiarism_check subs aid h = 95 ∧ ∃ s ∈ subs, s.assignment_id = aid ∧ s.file_hash = h) ∨
    (plagiarism_check subs aid h = 5 ∧ ¬ ∃ s ∈ subs, s.assignment_id = aid ∧ s.file_hash = h) := by
  unfold plagiarism_check
  cases hfind : subs.find? (fun s => s.assignment_id == aid && s.file_hash == h) with
  | some s =>
    have hp := List.find?_some hfind
    simp only [Bool.and_eq_true, beq_iff_eq] at hp
    exact Or.inl ⟨rfl, s, List.mem_of_find?_eq_some hfind, hp.1, hp.2⟩
  | none =>
    refine Or.inr ⟨rfl, ?_⟩
    rintro ⟨s, hs, h1, h2⟩
    exact absurd (by simp [h1, h2]) (List.find?_eq_none.mp hfind s hs)

/-- SQL `lower` as the dashboard query applies it (app.py lines 303–307):
each character lowercased (cohort strings are ASCII, where SQL `lower` and
per-character lowercasing agree). -/
def sqlLower (s : String) : String := String.mk (s.data.map Char.toLower)

/-- `lower(x) = lower(y)` equality used by the dashboard's assignment
query (app.py lines 303–307). -/
def lowerEq (x y : String) : Bool := sqlLower x == sqlLower y

/-- The cohort filter of `student_dashboard` (app.py lines 303–307):
year, branch and section compared case-insensitively via `lower`. -/
def cohortMatch (a : Assignment) (st : Student) : Bool :=
  lowerEq a.year st.year && lowerEq a.branch st.branch &&
    lowerEq a.«section» st.«section»

/-- An entry of the `available_assignments` list (app.py lines 341–346). -/
structure AvailableEntry where
  assignment : Assignment
  days_left : Int
  color : String
  can_upload : Bool
  deriving DecidableEq

/-- An entry of the `submitted_assignments` list (app.py lines 331–339). -/
structure SubmittedEntry where
  assignment : Assignment
  submitted_on : Int
  file_url : String
  plagiarism_score : ℚ
  days_left : Int
  color : String
  submission_id : Nat
  deriving DecidableEq

/-- The `submitted_map` lookup (app.py line 310): the dict comprehension
keeps, for each assignment id, the last submission in iteration order. -/
def submittedLookup (submissions : List Submission) (assignment_id : Nat) :
    Option Submission :=
  submissions.reverse.find? (fun s => s.assignment_id == assignment_id)

/-- One iteration of the dashboard loop (app.py lines 316–346): compute
`days_left`, the deadline color, `can_upload`, and route the assignment to
the submitted or the available partition. -/
def dashboardStep (today : Int) (submissions : List Submission)
    (a : Assignment) : Sum AvailableEntry SubmittedEntry :=
  let days_left := a.due_date - today
  let color := if days_left < 0 then "red"
    else if days_left ≤ 2 then "orange" else "green"
  let can_upload := if days_left < 0 then false else true
  match submittedLookup submissions a.id with
  | some s =>
    Sum.inr { assignment := a, submitted_on := s.submitted_on,
              file_url := s.file_url,
              plagiarism_score := s.plagiarism_score.getD 0,
              days_left := days_left, color := color, submission_id := s.id }
  | none =>
    Sum.inl { assignment := a, days_left := days_left, color := color,
              can_upload := can_upload }

/-- `student_dashboard` (app.py lines 295–354): filter assignments to the
student's cohort, restrict submissions to the student's own, and partition
into (available, submitted) preserving the loop's order. -/
def student_dashboard (allAssignments : List Assignment)
    (allSubmissions : List Submission) (student : Student) (today : Int) :
    List AvailableEntry × List SubmittedEntry :=
  let assignments := allAssignments.filter (fun a => cohortMatch a student)
  let submissions := allSubmissions.filter (fun s => s.student_id == student.id)
  (assignments.filterMap (fun a =>
      match dashboardStep today submissions a with
      | Sum.inl e => some e
      | Sum.inr _ => none),
   assignments.filterMap (fun a =>
      match dashboardStep today submissions a with
      | Sum.inl _ => none
      | Sum.inr e => some e))

/-- An assignment for cohort (year "2", branch " cse ", section "A"). -/
def assignSpacedCse : Assignment :=
  { id := 11, title := "t", year := "2", branch := " cse ", «section» := "A",
    due_date := 10, file_url := "fu" }

/-- The same assignment with the branch written "cse" without padding. -/
def assignPlainCse : Assignment :=
  { assignSpacedCse with branch := "cse" }

/-- A student of cohort (year "2", branch "CSE", section "A"). -/
def studentCSE : Student :=
  { id := 7, name := "n", roll_no := "r1", branch := "CSE", year := "2",
    «section» := "A", phone := "p", email := "e" }

/-- C3 as stated is false: the dashboard query lowercases but does not
trim, so an assignment whose branch is " cse " does not match a student
whose branch is "CSE", and such an assignment is absent from the student's
dashboard altogether. -/
theorem C3_counterexample :
    cohortMatch assignSpacedCse studentCSE = false ∧
    student_dashboard [assignSpacedCse] [] studentCSE 0 = ([], []) := by
  constructor
  · decide
  · decide

/-- C3 (amended): cohort matching compares year, branch and section with
case folding only, no whitespace trimming — branch "cse" matches a student
branch "CSE", while " cse " does not. -/
theorem C3_case_fold_no_trim :
    cohortMatch assignPlainCse studentCSE = true ∧
    cohortMatch assignSpacedCse studentCSE = false := by
  constructor
  · decide
  · decide

/-- Inversion on the available branch of the dashboard loop: an assignment
lands in the available partition exactly when `submitted_map` has no entry
for it, and its fields are the computed `days_left`, color and
`can_upload`. -/
theorem dashboardStep_inl (today : Int) (submissions : List Submission)
    (a : Assignment) (e : AvailableEntry)
    (h : dashboardStep today submissions a = Sum.inl e) :
    submittedLookup submissions a.id = none ∧
    e.assignment = a ∧ e.days_left = a.due_date - today ∧
    e.color = (if a.due_date - today < 0 then "red"
      else if a.due_date - today ≤ 2 then "orange" else "green") ∧
    e.can_upload = (if a.due_date - today < 0 then false else true) := by
  unfold dashboardStep at h
  cases hl : submittedLookup submissions a.id with
  | some s =>
    simp only [hl] at h
    exact Sum.noConfusion h
  | none =>
    simp only [hl] at h
    obtain rfl := (Sum.inl.injEq _ _).mp h
    exact ⟨rfl, rfl, rfl, rfl, rfl⟩

/-- C5: an assignment for which the student already has a submission never
appears in the available partition, whatever the deadline state. -/
theorem C5_submitted_never_available (allA : List Assignment)
    (allS : List Submission) (st : Student) (today : Int) (e : AvailableEntry)
    (he : e ∈ (student_dashboard allA allS st today).1) :
    ∀ s ∈ allS, ¬(s.student_id = st.id ∧ s.assignment_id = e.assignment.id) := by
  rintro s hs ⟨hsid, haid⟩
  unfold student_dashboard at he
  simp only [List.mem_filterMap] at he
  obtain ⟨a, _, ha⟩ := he
  cases hstep : dashboardStep today (allS.filter (fun s => s.student_id == st.id)) a with
  | inr _ =>
    simp only [hstep] at ha
    exact Option.noConfusion ha
  | inl e0 =>
    simp only [hstep, Option.some.injEq] at ha
    subst ha
    obtain ⟨hnone, hassign, -⟩ := dashboardStep_inl _ _ _ _ hstep
    have hmem : s ∈ (allS.filter (fun s => s.student_id == st.id)).reverse := by
      rw [List.mem_reverse, List.mem_filter]
      exact ⟨hs, by simp [hsid]⟩
    have := List.find?_eq_none.mp hnone s hmem
    rw [hassign] at haid
    simp [haid] at this

/-- A submission for assignment 11 by a different student (id 99). -/
def otherStudentsSub : Submission :=
  { id := 2, student_id := 99, assignment_id := 11, file_url := "u2",
    file_hash := "h2", submitted_on := 0, plagiarism_score := some 5 }

/-- The entry the dashboard derives for `assignPlainCse` on day 0 with no
submission by the student. -/
def availEntryPlainCse : AvailableEntry :=
  { assignment := assignPlainCse, days_left := 10, color := "green",
    can_upload := true }

/-- Witness for C5 on concrete data: assignment 11 is available to student
7 (only student 99 submitted), and the theorem yields that no submission
in the table is student 7's for assignment 11. -/
theorem C5_witness :
    ¬(otherStudentsSub.student_id = studentCSE.id ∧
      otherStudentsSub.assignment_id = availEntryPlainCse.assignment.id) :=
  C5_submitted_never_available [assignPlainCse] [otherStudentsSub] studentCSE 0
    availEntryPlainCse (by decide) otherStudentsSub (by decide)

/-- The database state the routes read and write: the assignments and
submissions tables. -/
structure PortalDB where
  assignments : List Assignment
  submissions : List Submission
  deriving DecidableEq

/-- Outcome of `submit_assignment` (app.py lines 356–393), one constructor
per early return plus success. -/
inductive SubmitResult where
  | notFound
  | deadlineCrossed
  | alreadySubmitted
  | noFile
  | success
  deriving DecidableEq

/-- `submit_assignment` (app.py lines 356–393) as a state transition:
look up the assignment (404 if absent), reject when `due_date < today`,
reject when the student already has a submission for it, reject when no
file was sent; otherwise hash the file, score it, and insert the new
submission row (with the Cloudinary upload reduced to the `uploadUrl` it
returns and `newId` the row id the insert assigns). -/
def submit_assignment (db : PortalDB) (student_id assignment_id : Nat)
    (file : Option FileUpload) (today : Int) (newId : Nat)
    (uploadUrl : String) : SubmitResult × PortalDB :=
  match db.assignments.find? (fun a => a.id == assignment_id) with
  | none => (SubmitResult.notFound, db)
  | some a =>
    if a.due_date < today then (SubmitResult.deadlineCrossed, db)
    else
      match db.submissions.find?
          (fun s => s.student_id == student_id && s.assignment_id == assignment_id) with
      | some _ => (SubmitResult.alreadySubmitted, db)
      | none =>
        match file with
        | none => (SubmitResult.noFile, db)
        | some f =>
          let file_hash := calculate_hash f
          let score := plagiarism_check db.submissions assignment_id file_hash
          let submission : Submission :=
            { id := newId, student_id := student_id,
              assignment_id := assignment_id, file_url := uploadUrl,
              file_hash := file_hash, submitted_on := today,
              plagiarism_score := some score }
          (SubmitResult.success, { db with submissions := db.submissions ++ [submission] })

/-- Outcome of `delete_submission` (app.py lines 395–415). -/
inductive DeleteResult where
  | notFound
  | unauthorized
  | deleted
  deriving DecidableEq

/-- `delete_submission` (app.py lines 395–415) as a state transition: look
up the submission by primary key (404 if absent), reject when the session
student does not own it, otherwise remove the row. No date is consulted
anywhere. -/
def delete_submission (db : PortalDB) (session_student_id : Nat)
    (submission_id : Nat) : DeleteResult × PortalDB :=
  match db.submissions.find? (fun s => s.id == submission_id) with
  | none => (DeleteResult.notFound, db)
  | some s =>
    if s.student_id != session_student_id then (DeleteResult.unauthorized, db)
    else
      (DeleteResult.deleted,
       { db with submissions := db.submissions.filter (fun t => t.id != submission_id) })

/-- The assignment (id 3) the concrete scenarios submit to, due on day 0. -/
def dueTodayAssign : Assignment :=
  { id := 3, title := "t3", year := "2", branch := "CSE", «section» := "A",
    due_date := 0, file_url := "fa" }

/-- A database whose one assignment (id 3, due day 0) already holds
`priorSub` by student 7. -/
def dbWithPrior : PortalDB :=
  { assignments := [dueTodayAssign], submissions := [priorSub] }

/-- C4 as stated is false: on day 5, after assignment 3's due date (day 0),
student 7's delete request still succeeds and removes the submission
record — the route never consults the due date. -/
theorem C4_counterexample :
    (delete_submission dbWithPrior 7 1).1 = DeleteResult.deleted ∧
    (delete_submission dbWithPrior 7 1).2.submissions = [] := by
  constructor
  · decide
  · decide

/-- C4 (amended): deleting a submission succeeds whenever the requester is
the owning student, regardless of the assignment's due date (which the
route never reads), and the row is removed. -/
theorem C4_delete_ignores_due_date (db : PortalDB) (sid subId : Nat)
    (s : Submission)
    (hfind : db.submissions.find? (fun t => t.id == subId) = some s)
    (hown : s.student_id = sid) :
    (delete_submission db sid subId).1 = DeleteResult.deleted ∧
    (delete_submission db sid subId).2.submissions
      = db.submissions.filter (fun t => t.id != subId) := by
  unfold delete_submission
  simp [hfind, hown]

/-- Witness for C4: the amended theorem at the concrete database. -/
theorem C4_witness :
    (delete_submission dbWithPrior 7 1).1 = DeleteResult.deleted ∧
    (delete_submission dbWithPrior 7 1).2.submissions
      = dbWithPrior.submissions.filter (fun t => t.id != 1) :=
  C4_delete_ignores_due_date dbWithPrior 7 1 priorSub (by decide) (by decide)

/-- `find?` after a `filter` is `find?` of the conjunction: the list-level
fact behind "only same-assignment rows can influence the query". -/
theorem find?_filter_and {α : Type} (l : List α) (p q : α → Bool) :
    (l.filter p).find? q = l.find? (fun x => p x && q x) := by
  induction l with
  | nil => rfl
  | cons x xs ih =>
    by_cases hp : p x
    · by_cases hq : q x
      · simp [List.filter_cons, List.find?_cons, hp, hq]
      · simp [List.filter_cons, List.find?_cons, hp, hq, ih]
    · simp [List.filter_cons, List.find?_cons, hp, ih]

/-- `plagiarism_check` factored through the same-assignment restriction of
its query. -/
theorem plagiarism_check_eq_filter (subs : List Submission) (aid : Nat)
    (h : String) :
    plagiarism_check subs aid h
      = match (subs.filter (fun s => s.assignment_id == aid)).find?
            (fun s => s.file_hash == h) with
        | some _ => (95 : ℚ)
        | none => 5 := by
  unfold plagiarism_check
  rw [find?_filter_and]

/-- C8: the score depends only on the submissions of the same assignment —
two tables agreeing on that assignment's rows score identically. -/
theorem C8_same_assignment_rows_only (subs1 subs2 : List Submission)
    (aid : Nat) (h : String)
    (hagree : subs1.filter (fun s => s.assignment_id == aid)
      = subs2.filter (fun s => s.assignment_id == aid)) :
    plagiarism_check subs1 aid h = plagiarism_check subs2 aid h := by
  rw [plagiarism_check_eq_filter, plagiarism_check_eq_filter, hagree]

/-- A submission for a different assignment (id 4) with the probed hash. -/
def foreignSub : Submission :=
  { id := 5, student_id := 8, assignment_id := 4, file_url := "u5",
    file_hash := "h1", submitted_on := 0, plagiarism_score := some 5 }

/-- Witness for C8: adding a row of another assignment (even with an equal
hash) leaves the score unchanged. -/
theorem C8_witness :
    plagiarism_check [foreignSub, priorSub] 3 "h1"
      = plagiarism_check [priorSub] 3 "h1" :=
  C8_same_assignment_rows_only [foreignSub, priorSub] [priorSub] 3 "h1" (by decide)

/-- C9: a submit by a student who already has a submission for the
assignment never succeeds and leaves the submissions table unchanged. -/
theorem C9_no_duplicate_submission (db : PortalDB) (sid aid : Nat)
    (file : Option FileUpload) (today : Int) (newId : Nat) (url : String)
    (s : Submission) (hs : s ∈ db.submissions)
    (hsid : s.student_id = sid) (haid : s.assignment_id = aid) :
    (submit_assignment db sid aid file today newId url).1 ≠ SubmitResult.success ∧
    (submit_assignment db sid aid file today newId url).2 = db := by
  unfold submit_assignment
  cases hfa : db.assignments.find? (fun a => a.id == aid) with
  | none => exact ⟨by simp, rfl⟩
  | some a =>
    by_cases hd : a.due_date < today
    · simp [hd]
    · have hsome : (db.submissions.find?
          (fun t => t.student_id == sid && t.assignment_id == aid)).isSome := by
        rw [List.find?_isSome]
        exact ⟨s, hs, by simp [hsid, haid]⟩
      cases hfs : db.submissions.find?
          (fun t => t.student_id == sid && t.assignment_id == aid) with
      | none => rw [hfs] at hsome; exact absurd hsome (by simp)
      | some t => simp [hd, hfs]

/-- Witness for C9: student 7 resubmitting to assignment 3 (due today, day
0, with a file) is rejected and the database is unchanged. -/
theorem C9_witness :
    (submit_assignment dbWithPrior 7 3 (some ⟨"h9"⟩) 0 6 "u9").1 ≠ SubmitResult.success ∧
    (submit_assignment dbWithPrior 7 3 (some ⟨"h9"⟩) 0 6 "u9").2 = dbWithPrior :=
  C9_no_duplicate_submission dbWithPrior 7 3 (some ⟨"h9"⟩) 0 6 "u9" priorSub
    (by decide) (by decide) (by decide)

/-- C6: the due-date boundary. In the dashboard (tiers are the colors:
"red" = expired, "orange" = urgent, "green" = normal), an available entry
with `days_left = 0` is urgent and uploadable, and one with `days_left < 0`
is expired and not uploadable; in the submit route, a submission on the
due date is never rejected for the deadline, while one strictly after it
is rejected with the state unchanged. -/
theorem C6_due_date_boundary (allA : List Assignment) (allS : List Submission)
    (st : Student) (today : Int) (db : PortalDB) (sid aid : Nat)
    (file : Option FileUpload) (newId : Nat) (url : String) :
    (∀ e ∈ (student_dashboard allA allS st today).1,
        (e.days_left = 0 → e.color = "orange" ∧ e.can_upload = true) ∧
        (e.days_left < 0 → e.color = "red" ∧ e.can_upload = false)) ∧
    ∀ a, db.assignments.find? (fun x => x.id == aid) = some a →
      (a.due_date = today →
        (submit_assignment db sid aid file today newId url).1
          ≠ SubmitResult.deadlineCrossed) ∧
      (a.due_date < today →
        submit_assignment db sid aid file today newId url
          = (SubmitResult.deadlineCrossed, db)) := by
  constructor
  · intro e he
    unfold student_dashboard at he
    simp only [List.mem_filterMap] at he
    obtain ⟨a, -, ha⟩ := he
    cases hstep : dashboardStep today (allS.filter (fun s => s.student_id == st.id)) a with
    | inr _ =>
      rw [hstep] at ha
      exact Option.noConfusion ha
    | inl e0 =>
      rw [hstep] at ha
      obtain rfl := Option.some_inj.mp ha
      obtain ⟨-, -, hdl, hcolor, hcu⟩ := dashboardStep_inl _ _ _ _ hstep
      constructor
      · intro h0
        have hd : a.due_date - today = 0 := by rw [← hdl]; exact h0
        rw [hcolor, hcu, hd]
        norm_num
      · intro hneg
        have hd : a.due_date - today < 0 := by rw [← hdl]; exact hneg
        rw [hcolor, hcu, if_pos hd, if_pos hd]
        exact ⟨rfl, rfl⟩
  · intro a hfa
    constructor
    · intro heq
      unfold submit_assignment
      simp only [hfa]
      have hlt : ¬a.due_date < today := by omega
      rw [if_neg hlt]
      cases hfs : db.submissions.find?
          (fun s => s.student_id == sid && s.assignment_id == aid) with
      | some t => simp [hfs]
      | none =>
        cases file with
        | none => simp [hfs]
        | some f => simp [hfs]
    · intro hlt
      unfold submit_assignment
      simp only [hfa]
      rw [if_pos hlt]

/-- The database for the C6 scenario: assignment 3 (due day 0) and no
submissions yet. -/
def dbNoSubs : PortalDB :=
  { assignments := [dueTodayAssign], submissions := [] }

/-- The entry the dashboard derives for assignment 3 on its due date. -/
def urgentEntry : AvailableEntry :=
  { assignment := dueTodayAssign, days_left := 0, color := "orange",
    can_upload := true }

/-- Witness for C6: on the due date (day 0) assignment 3 is orange and
uploadable and submitting is not deadline-rejected; on day 1 submitting is
deadline-rejected with the database unchanged. -/
theorem C6_witness :
    (urgentEntry.color = "orange" ∧ urgentEntry.can_upload = true) ∧
    (submit_assignment dbNoSubs 7 3 (some ⟨"h6"⟩) 0 9 "u6").1
      ≠ SubmitResult.deadlineCrossed ∧
    submit_assignment dbNoSubs 7 3 (some ⟨"h6"⟩) 1 9 "u6"
      = (SubmitResult.deadlineCrossed, dbNoSubs) := by
  refine ⟨?_, ?_, ?_⟩
  · exact ((C6_due_date_boundary [dueTodayAssign] [] studentCSE 0 dbNoSubs 7 3
      (some ⟨"h6"⟩) 9 "u6").1 urgentEntry (by decide)).1 (by decide)
  · exact ((C6_due_date_boundary [dueTodayAssign] [] studentCSE 0 dbNoSubs 7 3
      (some ⟨"h6"⟩) 9 "u6").2 dueTodayAssign (by decide)).1 (by decide)
  · exact ((C6_due_date_boundary [dueTodayAssign] [] studentCSE 1 dbNoSubs 7 3
      (some ⟨"h6"⟩) 9 "u6").2 dueTodayAssign (by decide)).2 (by decide)

end AssignmentPortal
